import Mathlib

/-!
Verification of the rate-limited contact submission workflow of
`src/app/main.py` (EM Center Web holding page).

The Python endpoint is embedded shallowly:

* `strip` models Python `str.strip()` on the ASCII whitespace characters.
* `emailMatch` models `re.match` of the pattern
  `^[a-zA-Z0-9._%+\-]+@[a-zA-Z0-9.\-]+\.[a-zA-Z]{2,}$` used in
  `ContactForm.email_valid`.
* `name_not_empty`, `email_valid`, `message_length` embed the three pydantic
  field validators; `validateForm` runs them in field-declaration order.
* `check_and_record` embeds the per-IP sliding-window rate limiter.  Its
  algorithm lives in the third-party slowapi library, not in this repository,
  so it is modelled from the spec (section 4.1).
* `handle_contact` embeds the full request pipeline for `POST /api/contact`
  in the order the framework executes it: request-body validation happens
  while FastAPI solves the endpoint dependencies, the
  `@limiter.limit("5/minute")` decorator wraps the endpoint function and runs
  next, and only then does the endpoint body run its origin check, honeypot
  check, database insert and notification e-mail.
-/

deriving instance DecidableEq for Except

namespace EmCenter

/-- The ASCII whitespace characters removed by Python `str.strip()`. -/
def isSpace (c : Char) : Bool :=
  c = ' ' || c = '\t' || c = '\n' || c = '\r' || c = '\x0b' || c = '\x0c'

/-- Remove leading and trailing whitespace from a character list. -/
def stripChars (l : List Char) : List Char :=
  ((l.dropWhile isSpace).reverse.dropWhile isSpace).reverse

/-- Python `s.strip()` on a string. -/
def strip (s : String) : String :=
  ⟨stripChars s.data⟩

/-- Characters allowed in the local part of the e-mail pattern:
`[a-zA-Z0-9._%+\-]`. -/
def isLocalChar (c : Char) : Bool :=
  c.isAlpha || c.isDigit || c = '.' || c = '_' || c = '%' || c = '+' || c = '-'

/-- Characters allowed in the domain part of the e-mail pattern:
`[a-zA-Z0-9.\-]`. -/
def isDomainChar (c : Char) : Bool :=
  c.isAlpha || c.isDigit || c = '.' || c = '-'

/-- Match of `[a-zA-Z0-9.\-]+\.[a-zA-Z]{2,}` against the whole list: some dot
splits the list into a non-empty domain-character part and a final part of at
least two ASCII letters. -/
def domainMatch (l : List Char) : Bool :=
  (List.range l.length).any fun i =>
    l.get? i = some '.' && decide (0 < i) && (l.take i).all isDomainChar &&
      decide (i + 3 ≤ l.length) && (l.drop (i + 1)).all Char.isAlpha

/-- Match of the full anchored pattern
`^[a-zA-Z0-9._%+\-]+@[a-zA-Z0-9.\-]+\.[a-zA-Z]{2,}$`: some position holds the
`@`, everything before it is a non-empty run of local-part characters, and
everything after it matches `domainMatch`. -/
def emailMatch (l : List Char) : Bool :=
  (List.range l.length).any fun j =>
    l.get? j = some '@' && decide (0 < j) && (l.take j).all isLocalChar &&
      domainMatch (l.drop (j + 1))

/-- Pydantic validator `ContactForm.name_not_empty`. -/
def name_not_empty (v : String) : Except String String :=
  if strip v = "" then Except.error "Meno je povinné" else Except.ok (strip v)

/-- Pydantic validator `ContactForm.email_valid`. -/
def email_valid (v : String) : Except String String :=
  if emailMatch (strip v).data then Except.ok (strip v)
  else Except.error "Neplatný formát e-mailu"

/-- Pydantic validator `ContactForm.message_length`.  The Python guard is
`if v and len(v.strip()) > 500`, so a missing or empty message is passed
through unchanged and a non-empty one is trimmed. -/
def message_length (v : Option String) : Except String (Option String) :=
  match v with
  | none => Except.ok none
  | some s =>
    if s = "" then Except.ok (some s)
    else if 500 < (strip s).data.length then
      Except.error "Správa môže mať maximálne 500 znakov"
    else Except.ok (some (strip s))

/-- The raw request body of `POST /api/contact`. -/
structure RawForm where
  name : String
  email : String
  phone : Option String
  message : Option String
  website : Option String
deriving DecidableEq

/-- A `ContactForm` value as it reaches the endpoint body, after the pydantic
validators ran. -/
structure ContactForm where
  name : String
  email : String
  phone : Option String
  message : Option String
  website : Option String
deriving DecidableEq

/-- Run the pydantic validators in field-declaration order; FastAPI turns a
validator failure into a 422 response before the endpoint function runs. -/
def validateForm (f : RawForm) : Except String ContactForm :=
  match name_not_empty f.name with
  | Except.error e => Except.error e
  | Except.ok n =>
    match email_valid f.email with
    | Except.error e => Except.error e
    | Except.ok em =>
      match message_length f.message with
      | Except.error e => Except.error e
      | Except.ok m => Except.ok ⟨n, em, f.phone, m, f.website⟩

/-- Window width of `@limiter.limit("5/minute")` in seconds. -/
def WINDOW_SECONDS : Nat := 60

/-- Maximum number of requests per window of `@limiter.limit("5/minute")`. -/
def MAX_REQUESTS : Nat := 5

/-- Per-IP rate limiter state: an association list from client IP to the
recorded submission timestamps. -/
abbrev LimiterState := List (String × List Nat)

/-- Recorded timestamps for one IP; a missing entry means no prior
submissions. -/
def getHits : LimiterState → String → List Nat
  | [], _ => []
  | (k, v) :: rest, ip => if k = ip then v else getHits rest ip

/-- Replace (or create) the recorded timestamps for one IP. -/
def setHits : LimiterState → String → List Nat → LimiterState
  | [], ip, l => [(ip, l)]
  | (k, v) :: rest, ip, l =>
    if k = ip then (k, l) :: rest else (k, v) :: setHits rest ip l

/-- Timestamps for an IP still younger than the window at time `now`. -/
def recentHits (st : LimiterState) (ip : String) (now : Nat) : List Nat :=
  (getHits st ip).filter fun ts => decide (now < ts + WINDOW_SECONDS)

/-- Modelled from the spec: the rate-limit algorithm itself lives in the
third-party slowapi/limits library and is not part of this repository, so it
follows section 4.1 of the spec word for word.  On each call, timestamps older
than the window are discarded; if the retained count is already at or above
the configured maximum the call returns not-allowed without recording the new
attempt, otherwise the current timestamp is recorded and the call returns
allowed. -/
def check_and_record (st : LimiterState) (ip : String) (now : Nat) :
    Bool × LimiterState :=
  let recent := recentHits st ip now
  if MAX_REQUESTS ≤ recent.length then
    (false, setHits st ip recent)
  else
    (true, setHits st ip (recent ++ [now]))

/-- A JSON response: HTTP status plus the `success`, `detail` and `message`
body fields actually produced by `main.py` (absent fields are `none`). -/
structure HttpResponse where
  status : Nat
  body_success : Option Bool
  body_detail : Option String
  body_message : Option String
deriving DecidableEq

/-- The 422 response FastAPI produces when a pydantic validator raises. -/
def validationErrorResponse (detail : String) : HttpResponse :=
  ⟨422, none, some detail, none⟩

/-- The 429 response of `rate_limit_handler`. -/
def rateLimitResponse : HttpResponse :=
  ⟨429, some false, some "Príliš veľa požiadaviek. Skúste to o chvíľu.", none⟩

/-- The 403 response of the origin check. -/
def forbiddenResponse : HttpResponse :=
  ⟨403, some false, some "Nepovolený prístup.", none⟩

/-- The 500 response of the database failure branch. -/
def dbErrorResponse : HttpResponse :=
  ⟨500, some false, some "Chyba pri ukladaní. Skúste to prosím znova.", none⟩

/-- The 200 response returned both on the honeypot branch and on genuine
acceptance; the two are literally the same JSON in `main.py`. -/
def successResponse : HttpResponse :=
  ⟨200, some true, none, some "Ďakujeme! Budeme vás kontaktovať."⟩

/-- The CORS/origin allow-list `ALLOWED_ORIGINS` of `main.py`. -/
def ALLOWED_ORIGINS : List String :=
  ["https://emcenter.isnex.eu", "https://emcenter.sk", "https://www.emcenter.sk"]

/-- A row of `emcenter_contacts` as inserted by the endpoint (`id` and
`created_at` are assigned by the database and not modelled). -/
structure ContactRecord where
  name : String
  email : String
  phone : Option String
  message : Option String
  ip_address : String
deriving DecidableEq

/-- The environment-dependent behaviour of the two external sinks: whether the
database insert raises (and with what message), and the SMTP configuration
and whether the SMTP transport raises. -/
structure Env where
  dbInsertFails : Bool
  dbErrorMsg : String
  smtpHost : String
  smtpRaises : Bool
deriving DecidableEq

/-- Outcome of the notification step of `send_notification_email`. -/
inductive NotifyResult where
  | skipped
  | sent
  | failed
deriving DecidableEq

/-- `send_notification_email`: skipped when `SMTP_HOST` is empty
(`smtp_available` is false), failed when the transport raises (the exception
is caught and logged inside the function), sent otherwise. -/
def send_notification_email (env : Env) : NotifyResult :=
  if env.smtpHost = "" then NotifyResult.skipped
  else if env.smtpRaises = true then NotifyResult.failed
  else NotifyResult.sent

/-- An incoming `POST /api/contact` request: the resolved client address (if
any), the `Origin` header (if any), the parsed body and the arrival time in
seconds. -/
structure ContactRequest where
  client : Option String
  origin : Option String
  body : RawForm
  now : Nat
deriving DecidableEq

/-- slowapi `get_remote_address`: the client host, falling back to the local
address when the request has no resolvable client. -/
def limiterKey (req : ContactRequest) : String :=
  match req.client with
  | some h => h
  | none => "127.0.0.1"

/-- Line 227 of `main.py`: `request.client.host if request.client else
"unknown"`. -/
def clientIp (req : ContactRequest) : String :=
  match req.client with
  | some h => h
  | none => "unknown"

/-- Line 230 of `main.py`: `request.headers.get("origin", "")`. -/
def originHeader (req : ContactRequest) : String :=
  match req.origin with
  | some o => o
  | none => ""

/-- The condition of the origin rejection branch:
`if origin and origin not in ALLOWED_ORIGINS`. -/
def originRejected (req : ContactRequest) : Bool :=
  originHeader req != "" && !(ALLOWED_ORIGINS.contains (originHeader req))

/-- The honeypot condition `if form.website:` (truthy means present and
non-empty). -/
def websiteFilled (f : ContactForm) : Bool :=
  match f.website with
  | some w => w != ""
  | none => false

/-- Result of one request through the whole pipeline: the response, the
database table afterwards, the limiter state afterwards, and the outcome of
the notification step (`none` when that step was never reached). -/
structure Outcome where
  response : HttpResponse
  db : List ContactRecord
  limiter : LimiterState
  notify : Option NotifyResult
deriving DecidableEq

/-- The full `POST /api/contact` pipeline in framework execution order:
pydantic body validation (422 on failure), then the `@limiter.limit`
decorator (429 on rejection), then the endpoint body: origin check (403),
honeypot check (fake 200), database insert (500 on failure) and the
best-effort notification e-mail. -/
def handle_contact (env : Env) (st : LimiterState) (db : List ContactRecord)
    (req : ContactRequest) : Outcome :=
  match validateForm req.body with
  | Except.error detail => ⟨validationErrorResponse detail, db, st, none⟩
  | Except.ok form =>
    let chk := check_and_record st (limiterKey req) req.now
    if chk.1 = false then ⟨rateLimitResponse, db, chk.2, none⟩
    else if originRejected req then ⟨forbiddenResponse, db, chk.2, none⟩
    else if websiteFilled form then ⟨successResponse, db, chk.2, none⟩
    else if env.dbInsertFails then ⟨dbErrorResponse, db, chk.2, none⟩
    else
      ⟨successResponse,
        db ++ [⟨form.name, form.email, form.phone, form.message, clientIp req⟩],
        chk.2, some (send_notification_email env)⟩

/-- Every stored row satisfies the data-model invariant: non-empty name and a
syntactically valid e-mail. -/
def recordValid (r : ContactRecord) : Prop :=
  r.name ≠ "" ∧ emailMatch r.email.data = true

/-- A form accepted by the validators carries the trimmed name (non-empty),
the trimmed e-mail (matching the pattern), and the untouched phone and
website fields. -/
lemma validateForm_ok_fields (f : RawForm) (form : ContactForm)
    (h : validateForm f = Except.ok form) :
    form.name = strip f.name ∧ form.name ≠ "" ∧ form.email = strip f.email ∧
      emailMatch form.email.data = true ∧ form.phone = f.phone ∧
      form.website = f.website := by
  by_cases hn : strip f.name = ""
  · simp [validateForm, name_not_empty, hn] at h
  · by_cases he : emailMatch (strip f.email).data = true
    · cases hm : message_length f.message with
      | error e =>
        simp [validateForm, name_not_empty, email_valid, hn, he, hm] at h
      | ok m =>
        simp [validateForm, name_not_empty, email_valid, hn, he, hm] at h
        subst h
        exact ⟨rfl, hn, rfl, he, rfl, rfl⟩
    · simp [validateForm, name_not_empty, email_valid, hn, he] at h

/-- When a pydantic validator fails, FastAPI answers 422 and nothing else of
the pipeline runs. -/
lemma handle_contact_error (env : Env) (st : LimiterState)
    (db : List ContactRecord) (req : ContactRequest) (d : String)
    (hv : validateForm req.body = Except.error d) :
    handle_contact env st db req = ⟨validationErrorResponse d, db, st, none⟩ := by
  simp [handle_contact, hv]

/-- When the limiter rejects the request, the endpoint body never runs. -/
lemma handle_contact_limited (env : Env) (st : LimiterState)
    (db : List ContactRecord) (req : ContactRequest) (form : ContactForm)
    (hv : validateForm req.body = Except.ok form)
    (hdeny : (check_and_record st (limiterKey req) req.now).1 = false) :
    handle_contact env st db req =
      ⟨rateLimitResponse, db, (check_and_record st (limiterKey req) req.now).2,
        none⟩ := by
  simp only [handle_contact, hv]
  simp [hdeny]

/-- Shape of the pipeline once validation passed and the limiter allowed the
request: only the endpoint body remains. -/
lemma handle_contact_ok (env : Env) (st : LimiterState)
    (db : List ContactRecord) (req : ContactRequest) (form : ContactForm)
    (hv : validateForm req.body = Except.ok form)
    (hallow : (check_and_record st (limiterKey req) req.now).1 = true) :
    handle_contact env st db req =
      if originRejected req then
        ⟨forbiddenResponse, db, (check_and_record st (limiterKey req) req.now).2,
          none⟩
      else if websiteFilled form then
        ⟨successResponse, db, (check_and_record st (limiterKey req) req.now).2,
          none⟩
      else if env.dbInsertFails then
        ⟨dbErrorResponse, db, (check_and_record st (limiterKey req) req.now).2,
          none⟩
      else
        ⟨successResponse,
          db ++ [⟨form.name, form.email, form.phone, form.message, clientIp req⟩],
          (check_and_record st (limiterKey req) req.now).2,
          some (send_notification_email env)⟩ := by
  simp only [handle_contact, hv]
  simp [hallow]

/-- C1 counterexample: the honeypot claim is false on the code.  First, with
an invalid e-mail and a filled honeypot the response is the 422 validation
response, not the success response, because pydantic validation runs before
the endpoint body.  Second, a honeypot request with valid fields does change
the rate-limiter state, because the `@limiter.limit` decorator wraps the whole
endpoint and records the request before the honeypot check runs. -/
theorem honeypot_claim_counterexample :
    (handle_contact ⟨false, "", "", false⟩ [] []
        ⟨some "198.51.100.9", none,
          ⟨"Jane", "not-an-email", none, none, some "spam-bot"⟩, 0⟩).response
      ≠ successResponse ∧
    (handle_contact ⟨false, "", "", false⟩ [] []
        ⟨some "198.51.100.9", none,
          ⟨"Jane", "jane@example.com", none, none, some "spam-bot"⟩, 0⟩).limiter
      ≠ ([] : LimiterState) := by
  decide

/-- C1 (amended): for a request whose fields pass validation and which the
rate limiter allows and the origin check passes, a non-empty honeypot field
yields exactly the genuine-acceptance response (same status, same body),
nothing is persisted and no notification is attempted; the attempt is,
however, recorded by the rate limiter. -/
theorem honeypot_amended (env : Env) (st : LimiterState)
    (db : List ContactRecord) (req : ContactRequest) (form : ContactForm)
    (hv : validateForm req.body = Except.ok form)
    (hallow : (check_and_record st (limiterKey req) req.now).1 = true)
    (horig : originRejected req = false)
    (hw : websiteFilled form = true) :
    (handle_contact env st db req).response = successResponse ∧
      (handle_contact env st db req).db = db ∧
      (handle_contact env st db req).notify = none ∧
      (handle_contact env st db req).limiter =
        (check_and_record st (limiterKey req) req.now).2 := by
  rw [handle_contact_ok env st db req form hv hallow]
  simp [horig, hw]

/-- C1 witness: concrete honeypot request, valid fields, fresh limiter. -/
theorem honeypot_amended_witness :
    (handle_contact ⟨false, "", "", false⟩ [] []
        ⟨some "198.51.100.9", none,
          ⟨"Jane", "jane@example.com", none, none, some "spam-bot"⟩, 0⟩).response
      = successResponse ∧
    (handle_contact ⟨false, "", "", false⟩ [] []
        ⟨some "198.51.100.9", none,
          ⟨"Jane", "jane@example.com", none, none, some "spam-bot"⟩, 0⟩).db = [] ∧
    (handle_contact ⟨false, "", "", false⟩ [] []
        ⟨some "198.51.100.9", none,
          ⟨"Jane", "jane@example.com", none, none, some "spam-bot"⟩, 0⟩).notify
      = none ∧
    (handle_contact ⟨false, "", "", false⟩ [] []
        ⟨some "198.51.100.9", none,
          ⟨"Jane", "jane@example.com", none, none, some "spam-bot"⟩, 0⟩).limiter
      = (check_and_record [] (limiterKey
          ⟨some "198.51.100.9", none,
            ⟨"Jane", "jane@example.com", none, none, some "spam-bot"⟩, 0⟩) 0).2 :=
  honeypot_amended ⟨false, "", "", false⟩ [] []
    ⟨some "198.51.100.9", none,
      ⟨"Jane", "jane@example.com", none, none, some "spam-bot"⟩, 0⟩
    ⟨"Jane", "jane@example.com", none, none, some "spam-bot"⟩ (by decide)
    (by decide) (by decide) (by decide)

/-- C3 counterexample: the origin claim is false on the code.  A request with
a disallowed origin and an invalid e-mail is answered with the 422 validation
response, not 403, because pydantic validation runs first; a request with a
disallowed origin from an IP whose window is already full is answered 429,
not 403, because the `@limiter.limit` decorator runs before the endpoint
body; and a disallowed-origin request does change the limiter state. -/
theorem origin_claim_counterexample :
    (handle_contact ⟨false, "", "", false⟩ [] []
        ⟨some "198.51.100.9", some "https://evil.example",
          ⟨"Jane", "not-an-email", none, none, none⟩, 0⟩).response
      ≠ forbiddenResponse ∧
    (handle_contact ⟨false, "", "", false⟩ [("198.51.100.9", [0, 0, 0, 0, 0])] []
        ⟨some "198.51.100.9", some "https://evil.example",
          ⟨"Jane", "jane@example.com", none, none, none⟩, 0⟩).response
      ≠ forbiddenResponse ∧
    (handle_contact ⟨false, "", "", false⟩ [] []
        ⟨some "198.51.100.9", some "https://evil.example",
          ⟨"Jane", "jane@example.com", none, none, none⟩, 0⟩).limiter
      ≠ ([] : LimiterState) := by
  decide

/-- C3 (amended): for a request whose fields pass validation and which the
rate limiter allows, an `Origin` header that is present and not in
`ALLOWED_ORIGINS` is rejected with the 403 response before the honeypot check
and before any persistence side effect: nothing is persisted and no
notification is attempted, whatever the honeypot field or the database
behaviour. -/
theorem origin_amended (env : Env) (st : LimiterState)
    (db : List ContactRecord) (req : ContactRequest) (form : ContactForm)
    (hv : validateForm req.body = Except.ok form)
    (hallow : (check_and_record st (limiterKey req) req.now).1 = true)
    (horig : originRejected req = true) :
    (handle_contact env st db req).response = forbiddenResponse ∧
      (handle_contact env st db req).db = db ∧
      (handle_contact env st db req).notify = none := by
  rw [handle_contact_ok env st db req form hv hallow]
  simp [horig]

/-- C3 witness: concrete disallowed-origin request with a filled honeypot and
a failing database, still answered 403 with no side effect. -/
theorem origin_amended_witness :
    (handle_contact ⟨true, "boom", "", false⟩ [] []
        ⟨some "198.51.100.9", some "https://evil.example",
          ⟨"Jane", "jane@example.com", none, none, some "spam-bot"⟩, 0⟩).response
      = forbiddenResponse ∧
    (handle_contact ⟨true, "boom", "", false⟩ [] []
        ⟨some "198.51.100.9", some "https://evil.example",
          ⟨"Jane", "jane@example.com", none, none, some "spam-bot"⟩, 0⟩).db
      = [] ∧
    (handle_contact ⟨true, "boom", "", false⟩ [] []
        ⟨some "198.51.100.9", some "https://evil.example",
          ⟨"Jane", "jane@example.com", none, none, some "spam-bot"⟩, 0⟩).notify
      = none :=
  origin_amended ⟨true, "boom", "", false⟩ [] []
    ⟨some "198.51.100.9", some "https://evil.example",
      ⟨"Jane", "jane@example.com", none, none, some "spam-bot"⟩, 0⟩
    ⟨"Jane", "jane@example.com", none, none, some "spam-bot"⟩ (by decide)
    (by decide) (by decide)

/-- C4: the pipeline only ever appends to the stored table (no update, no
delete), and when all previously stored records have a non-empty name and a
pattern-valid e-mail, so do all records after any request. -/
theorem stored_record_invariant (env : Env) (st : LimiterState)
    (db : List ContactRecord) (req : ContactRequest)
    (hinv : ∀ r ∈ db, recordValid r) :
    (∃ tail, (handle_contact env st db req).db = db ++ tail) ∧
      ∀ r ∈ (handle_contact env st db req).db, recordValid r := by
  cases hv : validateForm req.body with
  | error d =>
    rw [handle_contact_error env st db req d hv]
    exact ⟨⟨[], by simp⟩, hinv⟩
  | ok form =>
    cases hallow : (check_and_record st (limiterKey req) req.now).1 with
    | false =>
      rw [handle_contact_limited env st db req form hv hallow]
      exact ⟨⟨[], by simp⟩, hinv⟩
    | true =>
      obtain ⟨-, hname, -, hemail, -, -⟩ := validateForm_ok_fields req.body form hv
      rw [handle_contact_ok env st db req form hv hallow]
      split_ifs with h1 h2 h3
      · exact ⟨⟨[], by simp⟩, hinv⟩
      · exact ⟨⟨[], by simp⟩, hinv⟩
      · exact ⟨⟨[], by simp⟩, hinv⟩
      · refine ⟨⟨[⟨form.name, form.email, form.phone, form.message, clientIp req⟩],
          rfl⟩, ?_⟩
        intro r hr
        rcases List.mem_append.mp hr with hold | hnew
        · exact hinv r hold
        · rcases List.mem_singleton.mp hnew with rfl
          exact ⟨hname, hemail⟩

/-- C4 witness: a concrete accepted submission starting from an empty table
keeps the invariant. -/
theorem stored_record_invariant_witness :
    (∃ tail, (handle_contact ⟨false, "", "", false⟩ [] []
        ⟨some "198.51.100.9", none,
          ⟨" Jane ", "jane@example.com", none, none, none⟩, 0⟩).db
      = [] ++ tail) ∧
      ∀ r ∈ (handle_contact ⟨false, "", "", false⟩ [] []
        ⟨some "198.51.100.9", none,
          ⟨" Jane ", "jane@example.com", none, none, none⟩, 0⟩).db,
        recordValid r :=
  stored_record_invariant ⟨false, "", "", false⟩ [] [] _ (by simp)

/-- C5: a submission whose trimmed e-mail does not match the pattern is
answered with the 422 validation response and nothing is persisted. -/
theorem invalid_email_rejected (env : Env) (st : LimiterState)
    (db : List ContactRecord) (req : ContactRequest)
    (he : emailMatch (strip req.body.email).data = false) :
    (∃ d, (handle_contact env st db req).response = validationErrorResponse d) ∧
      (handle_contact env st db req).db = db := by
  have hv : ∃ d, validateForm req.body = Except.error d := by
    cases hn : name_not_empty req.body.name with
    | error e => exact ⟨e, by simp [validateForm, hn]⟩
    | ok n =>
      refine ⟨"Neplatný formát e-mailu", ?_⟩
      have hev : email_valid req.body.email = Except.error "Neplatný formát e-mailu" := by
        simp [email_valid, he]
      simp [validateForm, hn, hev]
  obtain ⟨d, hv⟩ := hv
  rw [handle_contact_error env st db req d hv]
  exact ⟨⟨d, rfl⟩, rfl⟩

/-- C5 witness: `email="not-an-email"` is rejected and not persisted. -/
theorem invalid_email_rejected_witness :
    (∃ d, (handle_contact ⟨false, "", "", false⟩ [] []
        ⟨some "198.51.100.9", none,
          ⟨"Jane", "not-an-email", none, none, none⟩, 0⟩).response
      = validationErrorResponse d) ∧
      (handle_contact ⟨false, "", "", false⟩ [] []
        ⟨some "198.51.100.9", none,
          ⟨"Jane", "not-an-email", none, none, none⟩, 0⟩).db = [] :=
  invalid_email_rejected ⟨false, "", "", false⟩ [] [] _ (by decide)

/-- C7: whenever a request changes the stored table, it appends exactly one
record whose persisted name and e-mail are the submitted values with leading
and trailing whitespace trimmed. -/
theorem persisted_fields_trimmed (env : Env) (st : LimiterState)
    (db : List ContactRecord) (req : ContactRequest)
    (h : (handle_contact env st db req).db ≠ db) :
    ∃ rec, (handle_contact env st db req).db = db ++ [rec] ∧
      rec.name = strip req.body.name ∧ rec.email = strip req.body.email := by
  cases hv : validateForm req.body with
  | error d =>
    rw [handle_contact_error env st db req d hv] at h
    exact absurd rfl h
  | ok form =>
    cases hallow : (check_and_record st (limiterKey req) req.now).1 with
    | false =>
      rw [handle_contact_limited env st db req form hv hallow] at h
      exact absurd rfl h
    | true =>
      obtain ⟨hname, -, hemail, -, -, -⟩ := validateForm_ok_fields req.body form hv
      rw [handle_contact_ok env st db req form hv hallow] at h ⊢
      split_ifs at h ⊢ with h1 h2 h3
      · exact absurd rfl h
      · exact absurd rfl h
      · exact absurd rfl h
      · exact ⟨⟨form.name, form.email, form.phone, form.message, clientIp req⟩,
          rfl, hname, hemail⟩

/-- C7 witness: `name=" Jane "` and `email="jane@example.com"` are persisted
as `"Jane"` and `"jane@example.com"`. -/
theorem persisted_fields_trimmed_witness :
    ∃ rec, (handle_contact ⟨false, "", "", false⟩ [] []
        ⟨some "198.51.100.9", none,
          ⟨" Jane ", "jane@example.com", none, none, none⟩, 0⟩).db
      = [] ++ [rec] ∧ rec.name = "Jane" ∧ rec.email = "jane@example.com" := by
  obtain ⟨rec, h1, h2, h3⟩ :=
    persisted_fields_trimmed ⟨false, "", "", false⟩ [] []
      ⟨some "198.51.100.9", none,
        ⟨" Jane ", "jane@example.com", none, none, none⟩, 0⟩ (by decide)
  exact ⟨rec, h1, h2.trans (by decide), h3.trans (by decide)⟩

/-- C8: when the database insert raises, the endpoint answers the fixed 500
retry response whose body does not depend on the raised exception message,
nothing is persisted, and the notification step is never reached. -/
theorem db_failure_response (env : Env) (st : LimiterState)
    (db : List ContactRecord) (req : ContactRequest) (form : ContactForm)
    (hv : validateForm req.body = Except.ok form)
    (hallow : (check_and_record st (limiterKey req) req.now).1 = true)
    (horig : originRejected req = false)
    (hw : websiteFilled form = false)
    (hfail : env.dbInsertFails = true) :
    (handle_contact env st db req).response = dbErrorResponse ∧
      (handle_contact env st db req).db = db ∧
      (handle_contact env st db req).notify = none := by
  rw [handle_contact_ok env st db req form hv hallow]
  simp [horig, hw, hfail]

/-- C8 witness: a failing insert with a secret-bearing exception message still
produces exactly the generic 500 response and no notification attempt. -/
theorem db_failure_response_witness :
    (handle_contact ⟨true, "connection refused at 10.0.0.5", "", false⟩ [] []
        ⟨some "198.51.100.9", none,
          ⟨"Jane", "jane@example.com", none, none, none⟩, 0⟩).response
      = dbErrorResponse ∧
      (handle_contact ⟨true, "connection refused at 10.0.0.5", "", false⟩ [] []
        ⟨some "198.51.100.9", none,
          ⟨"Jane", "jane@example.com", none, none, none⟩, 0⟩).db = [] ∧
      (handle_contact ⟨true, "connection refused at 10.0.0.5", "", false⟩ [] []
        ⟨some "198.51.100.9", none,
          ⟨"Jane", "jane@example.com", none, none, none⟩, 0⟩).notify = none :=
  db_failure_response ⟨true, "connection refused at 10.0.0.5", "", false⟩ [] []
    ⟨some "198.51.100.9", none,
      ⟨"Jane", "jane@example.com", none, none, none⟩, 0⟩
    ⟨"Jane", "jane@example.com", none, none, none⟩ (by decide) (by decide)
    (by decide) (by decide) (by decide)

/-- C9: when persistence succeeds the endpoint answers the success response
for every SMTP configuration and transport behaviour; an empty SMTP host
skips the notification, a raising transport swallows the failure, and neither
changes the response. -/
theorem notify_never_changes_response (env : Env) (st : LimiterState)
    (db : List ContactRecord) (req : ContactRequest) (form : ContactForm)
    (hv : validateForm req.body = Except.ok form)
    (hallow : (check_and_record st (limiterKey req) req.now).1 = true)
    (horig : originRejected req = false)
    (hw : websiteFilled form = false)
    (hok : env.dbInsertFails = false) :
    (handle_contact env st db req).response = successResponse ∧
      (handle_contact env st db req).notify =
        some (send_notification_email env) ∧
      (env.smtpHost = "" → send_notification_email env = NotifyResult.skipped) ∧
      (env.smtpHost ≠ "" → env.smtpRaises = true →
        send_notification_email env = NotifyResult.failed) := by
  rw [handle_contact_ok env st db req form hv hallow]
  refine ⟨by simp [horig, hw, hok], by simp [horig, hw, hok], ?_, ?_⟩
  · intro h
    simp [send_notification_email, h]
  · intro h1 h2
    simp [send_notification_email, h1, h2]

/-- C9 witness: unconfigured SMTP host, storage succeeds: success response,
notification skipped. -/
theorem notify_never_changes_response_witness :
    (handle_contact ⟨false, "", "", true⟩ [] []
        ⟨some "198.51.100.9", none,
          ⟨"Jane", "jane@example.com", none, none, none⟩, 0⟩).response
      = successResponse ∧
      (handle_contact ⟨false, "", "", true⟩ [] []
        ⟨some "198.51.100.9", none,
          ⟨"Jane", "jane@example.com", none, none, none⟩, 0⟩).notify
        = some (send_notification_email ⟨false, "", "", true⟩) ∧
      ((⟨false, "", "", true⟩ : Env).smtpHost = "" →
        send_notification_email ⟨false, "", "", true⟩ = NotifyResult.skipped) ∧
      ((⟨false, "", "", true⟩ : Env).smtpHost ≠ "" →
        (⟨false, "", "", true⟩ : Env).smtpRaises = true →
        send_notification_email ⟨false, "", "", true⟩ = NotifyResult.failed) :=
  notify_never_changes_response ⟨false, "", "", true⟩ [] []
    ⟨some "198.51.100.9", none,
      ⟨"Jane", "jane@example.com", none, none, none⟩, 0⟩
    ⟨"Jane", "jane@example.com", none, none, none⟩ (by decide) (by decide)
    (by decide) (by decide) (by decide)

/-- C10: an accepted submission on a request with no resolvable client
address is still persisted, and the stored `ip_address` is the literal string
"unknown". -/
theorem unknown_ip_recorded (env : Env) (st : LimiterState)
    (db : List ContactRecord) (req : ContactRequest) (form : ContactForm)
    (hv : validateForm req.body = Except.ok form)
    (hclient : req.client = none)
    (hallow : (check_and_record st (limiterKey req) req.now).1 = true)
    (horig : originRejected req = false)
    (hw : websiteFilled form = false)
    (hok : env.dbInsertFails = false) :
    (handle_contact env st db req).db =
      db ++ [⟨form.name, form.email, form.phone, form.message, "unknown"⟩] := by
  rw [handle_contact_ok env st db req form hv hallow]
  simp [horig, hw, hok, clientIp, hclient]

/-- C10 witness: a clientless accepted submission stores
`ip_address = "unknown"`. -/
theorem unknown_ip_recorded_witness :
    (handle_contact ⟨false, "", "", false⟩ [] []
        ⟨none, none, ⟨"Jane", "jane@example.com", none, none, none⟩, 0⟩).db =
      [] ++ [⟨"Jane", "jane@example.com", none, none, "unknown"⟩] :=
  unknown_ip_recorded ⟨false, "", "", false⟩ [] []
    ⟨none, none, ⟨"Jane", "jane@example.com", none, none, none⟩, 0⟩
    ⟨"Jane", "jane@example.com", none, none, none⟩ (by decide) rfl
    (by decide) (by decide) (by decide) (by decide)

/-- C6: a submission whose message is present and exceeds 500 characters
after trimming is rejected with the 422 validation response and nothing is
persisted, while a message of at most 500 characters after trimming passes
the message-length validator. -/
theorem message_length_bound (env : Env) (st : LimiterState)
    (db : List ContactRecord) (req : ContactRequest) (s : String)
    (hm : req.body.message = some s) :
    (500 < (strip s).length →
      (∃ d, (handle_contact env st db req).response = validationErrorResponse d) ∧
        (handle_contact env st db req).db = db) ∧
    ((strip s).length ≤ 500 →
      ∃ m, message_length (some s) = Except.ok m) := by
  constructor
  · intro hlong
    have hv : ∃ d, validateForm req.body = Except.error d := by
      cases hn : name_not_empty req.body.name with
      | error e => exact ⟨e, by simp [validateForm, hn]⟩
      | ok n =>
        cases he : email_valid req.body.email with
        | error e => exact ⟨e, by simp [validateForm, hn, he]⟩
        | ok em =>
          refine ⟨"Správa môže mať maximálne 500 znakov", ?_⟩
          have hs : s ≠ "" := by
            intro h0
            rw [h0] at hlong
            have hz : (strip "").length = 0 := rfl
            omega
          have hml : message_length (some s) =
              Except.error "Správa môže mať maximálne 500 znakov" := by
            simp [message_length, hs, hlong]
          simp [validateForm, hn, he, hm, hml]
    obtain ⟨d, hv⟩ := hv
    rw [handle_contact_error env st db req d hv]
    exact ⟨⟨d, rfl⟩, rfl⟩
  · intro hshort
    by_cases hs : s = ""
    · exact ⟨some s, by simp [message_length, hs]⟩
    · exact ⟨some (strip s), by simp [message_length, hs, Nat.not_lt.mpr hshort]⟩

set_option maxRecDepth 8000 in
/-- C6 witness: a 501-character message is rejected and not persisted, and a
500-character message passes the validator. -/
theorem message_length_bound_witness :
    ((∃ d, (handle_contact ⟨false, "", "", false⟩ [] []
        ⟨some "198.51.100.9", none,
          ⟨"Jane", "jane@example.com", none,
            some (String.mk (List.replicate 501 'a')), none⟩, 0⟩).response
      = validationErrorResponse d) ∧
      (handle_contact ⟨false, "", "", false⟩ [] []
        ⟨some "198.51.100.9", none,
          ⟨"Jane", "jane@example.com", none,
            some (String.mk (List.replicate 501 'a')), none⟩, 0⟩).db = []) ∧
    (∃ m, message_length (some (String.mk (List.replicate 500 'a')))
      = Except.ok m) :=
  ⟨(message_length_bound ⟨false, "", "", false⟩ [] []
      ⟨some "198.51.100.9", none,
        ⟨"Jane", "jane@example.com", none,
          some (String.mk (List.replicate 501 'a')), none⟩, 0⟩
      (String.mk (List.replicate 501 'a')) rfl).1 (by decide),
   (message_length_bound ⟨false, "", "", false⟩ [] []
      ⟨some "198.51.100.9", none,
        ⟨"Jane", "jane@example.com", none,
          some (String.mk (List.replicate 500 'a')), none⟩, 0⟩
      (String.mk (List.replicate 500 'a')) rfl).2 (by decide)⟩

/-- The recurring valid submission used in the rate-limit scenario: a fixed
IP and a fixed valid body, sent at time `t`. -/
def submissionAt (t : Nat) : ContactRequest :=
  ⟨some "203.0.113.7", none, ⟨"Jane", "jane@example.com", none, none, none⟩, t⟩

/-- One accepted pipeline step of the rate-limit scenario: under the limit,
the submission is persisted and its timestamp recorded. -/
lemma submission_step_allowed (env : Env) (hdb : env.dbInsertFails = false)
    (st : LimiterState) (db : List ContactRecord) (t : Nat)
    (hlen : (recentHits st "203.0.113.7" t).length < MAX_REQUESTS) :
    handle_contact env st db (submissionAt t) =
      ⟨successResponse,
        db ++ [⟨"Jane", "jane@example.com", none, none, "203.0.113.7"⟩],
        setHits st "203.0.113.7" (recentHits st "203.0.113.7" t ++ [t]),
        some (send_notification_email env)⟩ := by
  have hchk : check_and_record st "203.0.113.7" t =
      (true, setHits st "203.0.113.7" (recentHits st "203.0.113.7" t ++ [t])) := by
    simp only [check_and_record]
    rw [if_neg (Nat.not_le.mpr hlen)]
  have hv : validateForm (submissionAt t).body =
      Except.ok ⟨"Jane", "jane@example.com", none, none, none⟩ := rfl
  have hkey : limiterKey (submissionAt t) = "203.0.113.7" := rfl
  have hnow : (submissionAt t).now = t := rfl
  have horig : originRejected (submissionAt t) = false := rfl
  have hcip : clientIp (submissionAt t) = "203.0.113.7" := rfl
  have hw : websiteFilled
      (⟨"Jane", "jane@example.com", none, none, none⟩ : ContactForm) = false :=
    rfl
  rw [handle_contact_ok env st db (submissionAt t) _ hv
    (by rw [hkey, hnow, hchk])]
  rw [hkey, hnow, hchk]
  simp [horig, hw, hdb, hcip]

/-- One rejected pipeline step of the rate-limit scenario: at or above the
limit, the submission is answered 429, nothing is persisted and the rejected
attempt is not recorded. -/
lemma submission_step_denied (env : Env) (st : LimiterState)
    (db : List ContactRecord) (t : Nat)
    (hlen : MAX_REQUESTS ≤ (recentHits st "203.0.113.7" t).length) :
    handle_contact env st db (submissionAt t) =
      ⟨rateLimitResponse, db,
        setHits st "203.0.113.7" (recentHits st "203.0.113.7" t), none⟩ := by
  have hchk : check_and_record st "203.0.113.7" t =
      (false, setHits st "203.0.113.7" (recentHits st "203.0.113.7" t)) := by
    simp only [check_and_record]
    rw [if_pos hlen]
  have hv : validateForm (submissionAt t).body =
      Except.ok ⟨"Jane", "jane@example.com", none, none, none⟩ := rfl
  have hkey : limiterKey (submissionAt t) = "203.0.113.7" := rfl
  have hnow : (submissionAt t).now = t := rfl
  rw [handle_contact_limited env st db (submissionAt t) _ hv
    (by rw [hkey, hnow, hchk])]
  rw [hkey, hnow, hchk]

/-- C2: from a fresh limiter, five submissions of the same IP within one
window are all accepted, the sixth within the same window is answered with
the 429 rate-limit response, its timestamp is not recorded against the IP and
nothing more is persisted; once the window has fully elapsed after the last
accepted submission, the next submission from that IP is accepted again. -/
theorem rate_limit_window (env : Env) (hdb : env.dbInsertFails = false)
    (t1 t2 t3 t4 t5 t6 t7 : Nat)
    (h12 : t1 ≤ t2) (h23 : t2 ≤ t3) (h34 : t3 ≤ t4) (h45 : t4 ≤ t5)
    (h56 : t5 ≤ t6) (hwin : t6 < t1 + WINDOW_SECONDS)
    (helapsed : t5 + WINDOW_SECONDS ≤ t7) :
    let o1 := handle_contact env [] [] (submissionAt t1)
    let o2 := handle_contact env o1.limiter o1.db (submissionAt t2)
    let o3 := handle_contact env o2.limiter o2.db (submissionAt t3)
    let o4 := handle_contact env o3.limiter o3.db (submissionAt t4)
    let o5 := handle_contact env o4.limiter o4.db (submissionAt t5)
    let o6 := handle_contact env o5.limiter o5.db (submissionAt t6)
    let o7 := handle_contact env o6.limiter o6.db (submissionAt t7)
    o1.response = successResponse ∧ o2.response = successResponse ∧
    o3.response = successResponse ∧ o4.response = successResponse ∧
    o5.response = successResponse ∧
    o6.response = rateLimitResponse ∧
    getHits o6.limiter "203.0.113.7" = [t1, t2, t3, t4, t5] ∧
    o6.db = o5.db ∧
    o7.response = successResponse := by
  have hwin60 : t6 < t1 + 60 := hwin
  have hel60 : t5 + 60 ≤ t7 := helapsed
  have w21 : t2 < t1 + 60 := by omega
  have w31 : t3 < t1 + 60 := by omega
  have w32 : t3 < t2 + 60 := by omega
  have w41 : t4 < t1 + 60 := by omega
  have w42 : t4 < t2 + 60 := by omega
  have w43 : t4 < t3 + 60 := by omega
  have w51 : t5 < t1 + 60 := by omega
  have w52 : t5 < t2 + 60 := by omega
  have w53 : t5 < t3 + 60 := by omega
  have w54 : t5 < t4 + 60 := by omega
  have w61 : t6 < t1 + 60 := by omega
  have w62 : t6 < t2 + 60 := by omega
  have w63 : t6 < t3 + 60 := by omega
  have w64 : t6 < t4 + 60 := by omega
  have w65 : t6 < t5 + 60 := by omega
  have n1 : ¬ t7 < t1 + 60 := by omega
  have n2 : ¬ t7 < t2 + 60 := by omega
  have n3 : ¬ t7 < t3 + 60 := by omega
  have n4 : ¬ t7 < t4 + 60 := by omega
  have n5 : ¬ t7 < t5 + 60 := by omega
  have hr1 : recentHits [] "203.0.113.7" t1 = [] := rfl
  have hr2 : recentHits [("203.0.113.7", [t1])] "203.0.113.7" t2 = [t1] := by
    simp [recentHits, getHits, WINDOW_SECONDS, List.filter_cons, w21]
  have hr3 : recentHits [("203.0.113.7", [t1, t2])] "203.0.113.7" t3
      = [t1, t2] := by
    simp [recentHits, getHits, WINDOW_SECONDS, List.filter_cons, w31, w32]
  have hr4 : recentHits [("203.0.113.7", [t1, t2, t3])] "203.0.113.7" t4
      = [t1, t2, t3] := by
    simp [recentHits, getHits, WINDOW_SECONDS, List.filter_cons, w41, w42, w43]
  have hr5 : recentHits [("203.0.113.7", [t1, t2, t3, t4])] "203.0.113.7" t5
      = [t1, t2, t3, t4] := by
    simp [recentHits, getHits, WINDOW_SECONDS, List.filter_cons,
      w51, w52, w53, w54]
  have hr6 : recentHits [("203.0.113.7", [t1, t2, t3, t4, t5])] "203.0.113.7" t6
      = [t1, t2, t3, t4, t5] := by
    simp [recentHits, getHits, WINDOW_SECONDS, List.filter_cons,
      w61, w62, w63, w64, w65]
  have hr7 : recentHits [("203.0.113.7", [t1, t2, t3, t4, t5])] "203.0.113.7" t7
      = [] := by
    simp [recentHits, getHits, WINDOW_SECONDS, List.filter_cons,
      n1, n2, n3, n4, n5]
  have e1 : handle_contact env [] [] (submissionAt t1) =
      ⟨successResponse,
        [⟨"Jane", "jane@example.com", none, none, "203.0.113.7"⟩],
        [("203.0.113.7", [t1])], some (send_notification_email env)⟩ := by
    rw [submission_step_allowed env hdb [] [] t1 (by rw [hr1]; norm_num [MAX_REQUESTS])]
    rw [hr1]
    rfl
  have e2 : handle_contact env [("203.0.113.7", [t1])]
      [⟨"Jane", "jane@example.com", none, none, "203.0.113.7"⟩]
      (submissionAt t2) =
      ⟨successResponse,
        [⟨"Jane", "jane@example.com", none, none, "203.0.113.7"⟩,
         ⟨"Jane", "jane@example.com", none, none, "203.0.113.7"⟩],
        [("203.0.113.7", [t1, t2])], some (send_notification_email env)⟩ := by
    rw [submission_step_allowed env hdb _ _ t2 (by rw [hr2]; norm_num [MAX_REQUESTS])]
    rw [hr2]
    rfl
  have e3 : handle_contact env [("203.0.113.7", [t1, t2])]
      [⟨"Jane", "jane@example.com", none, none, "203.0.113.7"⟩,
       ⟨"Jane", "jane@example.com", none, none, "203.0.113.7"⟩]
      (submissionAt t3) =
      ⟨successResponse,
        [⟨"Jane", "jane@example.com", none, none, "203.0.113.7"⟩,
         ⟨"Jane", "jane@example.com", none, none, "203.0.113.7"⟩,
         ⟨"Jane", "jane@example.com", none, none, "203.0.113.7"⟩],
        [("203.0.113.7", [t1, t2, t3])], some (send_notification_email env)⟩ := by
    rw [submission_step_allowed env hdb _ _ t3 (by rw [hr3]; norm_num [MAX_REQUESTS])]
    rw [hr3]
    rfl
  have e4 : handle_contact env [("203.0.113.7", [t1, t2, t3])]
      [⟨"Jane", "jane@example.com", none, none, "203.0.113.7"⟩,
       ⟨"Jane", "jane@example.com", none, none, "203.0.113.7"⟩,
       ⟨"Jane", "jane@example.com", none, none, "203.0.113.7"⟩]
      (submissionAt t4) =
      ⟨successResponse,
        [⟨"Jane", "jane@example.com", none, none, "203.0.113.7"⟩,
         ⟨"Jane", "jane@example.com", none, none, "203.0.113.7"⟩,
         ⟨"Jane", "jane@example.com", none, none, "203.0.113.7"⟩,
         ⟨"Jane", "jane@example.com", none, none, "203.0.113.7"⟩],
        [("203.0.113.7", [t1, t2, t3, t4])],
        some (send_notification_email env)⟩ := by
    rw [submission_step_allowed env hdb _ _ t4 (by rw [hr4]; norm_num [MAX_REQUESTS])]
    rw [hr4]
    rfl
  have e5 : handle_contact env [("203.0.113.7", [t1, t2, t3, t4])]
      [⟨"Jane", "jane@example.com", none, none, "203.0.113.7"⟩,
       ⟨"Jane", "jane@example.com", none, none, "203.0.113.7"⟩,
       ⟨"Jane", "jane@example.com", none, none, "203.0.113.7"⟩,
       ⟨"Jane", "jane@example.com", none, none, "203.0.113.7"⟩]
      (submissionAt t5) =
      ⟨successResponse,
        [⟨"Jane", "jane@example.com", none, none, "203.0.113.7"⟩,
         ⟨"Jane", "jane@example.com", none, none, "203.0.113.7"⟩,
         ⟨"Jane", "jane@example.com", none, none, "203.0.113.7"⟩,
         ⟨"Jane", "jane@example.com", none, none, "203.0.113.7"⟩,
         ⟨"Jane", "jane@example.com", none, none, "203.0.113.7"⟩],
        [("203.0.113.7", [t1, t2, t3, t4, t5])],
        some (send_notification_email env)⟩ := by
    rw [submission_step_allowed env hdb _ _ t5 (by rw [hr5]; norm_num [MAX_REQUESTS])]
    rw [hr5]
    rfl
  have e6 : handle_contact env [("203.0.113.7", [t1, t2, t3, t4, t5])]
      [⟨"Jane", "jane@example.com", none, none, "203.0.113.7"⟩,
       ⟨"Jane", "jane@example.com", none, none, "203.0.113.7"⟩,
       ⟨"Jane", "jane@example.com", none, none, "203.0.113.7"⟩,
       ⟨"Jane", "jane@example.com", none, none, "203.0.113.7"⟩,
       ⟨"Jane", "jane@example.com", none, none, "203.0.113.7"⟩]
      (submissionAt t6) =
      ⟨rateLimitResponse,
        [⟨"Jane", "jane@example.com", none, none, "203.0.113.7"⟩,
         ⟨"Jane", "jane@example.com", none, none, "203.0.113.7"⟩,
         ⟨"Jane", "jane@example.com", none, none, "203.0.113.7"⟩,
         ⟨"Jane", "jane@example.com", none, none, "203.0.113.7"⟩,
         ⟨"Jane", "jane@example.com", none, none, "203.0.113.7"⟩],
        [("203.0.113.7", [t1, t2, t3, t4, t5])], none⟩ := by
    rw [submission_step_denied env _ _ t6 (by rw [hr6]; norm_num [MAX_REQUESTS])]
    rw [hr6]
    rfl
  have e7 : handle_contact env [("203.0.113.7", [t1, t2, t3, t4, t5])]
      [⟨"Jane", "jane@example.com", none, none, "203.0.113.7"⟩,
       ⟨"Jane", "jane@example.com", none, none, "203.0.113.7"⟩,
       ⟨"Jane", "jane@example.com", none, none, "203.0.113.7"⟩,
       ⟨"Jane", "jane@example.com", none, none, "203.0.113.7"⟩,
       ⟨"Jane", "jane@example.com", none, none, "203.0.113.7"⟩]
      (submissionAt t7) =
      ⟨successResponse,
        [⟨"Jane", "jane@example.com", none, none, "203.0.113.7"⟩,
         ⟨"Jane", "jane@example.com", none, none, "203.0.113.7"⟩,
         ⟨"Jane", "jane@example.com", none, none, "203.0.113.7"⟩,
         ⟨"Jane", "jane@example.com", none, none, "203.0.113.7"⟩,
         ⟨"Jane", "jane@example.com", none, none, "203.0.113.7"⟩,
         ⟨"Jane", "jane@example.com", none, none, "203.0.113.7"⟩],
        [("203.0.113.7", [t7])], some (send_notification_email env)⟩ := by
    rw [submission_step_allowed env hdb _ _ t7 (by rw [hr7]; norm_num [MAX_REQUESTS])]
    rw [hr7]
    rfl
  simp only [e1, e2, e3, e4, e5, e6, e7]
  simp [getHits]

/-- C2 witness: the scenario at concrete times 0, 0, 0, 0, 0, 59 and 60. -/
theorem rate_limit_window_witness :
    let o1 := handle_contact ⟨false, "", "", false⟩ [] [] (submissionAt 0)
    let o2 := handle_contact ⟨false, "", "", false⟩ o1.limiter o1.db
      (submissionAt 0)
    let o3 := handle_contact ⟨false, "", "", false⟩ o2.limiter o2.db
      (submissionAt 0)
    let o4 := handle_contact ⟨false, "", "", false⟩ o3.limiter o3.db
      (submissionAt 0)
    let o5 := handle_contact ⟨false, "", "", false⟩ o4.limiter o4.db
      (submissionAt 0)
    let o6 := handle_contact ⟨false, "", "", false⟩ o5.limiter o5.db
      (submissionAt 59)
    let o7 := handle_contact ⟨false, "", "", false⟩ o6.limiter o6.db
      (submissionAt 60)
    o1.response = successResponse ∧ o2.response = successResponse ∧
    o3.response = successResponse ∧ o4.response = successResponse ∧
    o5.response = successResponse ∧
    o6.response = rateLimitResponse ∧
    getHits o6.limiter "203.0.113.7" = [0, 0, 0, 0, 0] ∧
    o6.db = o5.db ∧
    o7.response = successResponse :=
  rate_limit_window ⟨false, "", "", false⟩ rfl 0 0 0 0 0 59 60 (by decide)
    (by decide) (by decide) (by decide) (by decide) (by decide) (by decide)

end EmCenter
